import Mathlib

/-!
Shallow embedding of the credential lifecycle and resilient remote-call layer
of the repository (src/src/youtube-client.ts and src/src/auth/auth-manager.ts),
together with theorems settling the specification claims about it.

Conventions of the embedding:
* JavaScript numbers that hold epoch milliseconds are modelled as Int,
  retry counters and delays as Nat.
* A JavaScript value that may be undefined is modelled as Option.
* JavaScript truthiness is made explicit where the source relies on it
  (the empty string and the number 0 are falsy).
* Thrown exceptions are modelled with Except.
-/

/-- Mirrors JavaScript String.prototype.includes restricted to what the source
uses: a check whether the second string occurs as a contiguous substring of the
first. Helper on character lists: does the needle occur at the head position. -/
def charsStartWith : List Char → List Char → Bool
  | [], _ => true
  | _ :: _, [] => false
  | a :: as, b :: bs => a == b && charsStartWith as bs

/-- Does the needle occur as a contiguous infix of the haystack. -/
def charsHaveInfix (needle : List Char) : List Char → Bool
  | [] => charsStartWith needle []
  | b :: bs => charsStartWith needle (b :: bs) || charsHaveInfix needle bs

/-- `strIncludes s sub` mirrors the JavaScript call `s.includes(sub)`. -/
def strIncludes (s sub : String) : Bool :=
  charsHaveInfix sub.toList s.toList

/-- A raw failed remote call as seen by `handleApiError` and `withRetry` in
src/src/youtube-client.ts: an HTTP-like status code (absent for plain errors)
and a message. -/
structure ApiError where
  code : Option Nat
  message : String
deriving DecidableEq

/-- Outcome of running `handleApiError` on a raw error: either one of the
typed errors it throws (`QuotaExceededError`, `RateLimitError`, the plain
`Error` built for status 401), or no reclassification, in which case the
caller rethrows the original error (the function only logs and returns). -/
inductive ApiFailure where
  | quotaExceededErr (msg : String)
  | rateLimitErr (msg : String)
  | genericAuthErr (msg : String)
  | originalErr (e : ApiError)
deriving DecidableEq

/-- Embedding of `handleApiError` (src/src/youtube-client.ts lines 268-292).
The source checks, in order: status 403 with message containing
"quotaExceeded", status 403 with message containing "userRateLimitExceeded",
status 429, status 401; any other error is only logged, so the original error
propagates unchanged. -/
def handleApiError (e : ApiError) : ApiFailure :=
  if e.code == some 403 && strIncludes e.message "quotaExceeded" then
    ApiFailure.quotaExceededErr "Daily quota exceeded"
  else if e.code == some 403 && strIncludes e.message "userRateLimitExceeded" then
    ApiFailure.rateLimitErr "User rate limit exceeded"
  else if e.code == some 429 then
    ApiFailure.rateLimitErr "Rate limit exceeded"
  else if e.code == some 401 then
    ApiFailure.genericAuthErr "Authentication failed. Please re-authenticate."
  else
    ApiFailure.originalErr e

/-- The error kinds named by the specification for classification outcomes. -/
inductive ClassKind where
  | quotaExceededK
  | rateLimitedK
  | authFailedK
  | unknownK
deriving DecidableEq

/-- The specification-level kind of a classified failure. An error that
`handleApiError` does not reclassify carries no typed kind, which corresponds
to the Unknown kind of the specification. -/
def kindOf : ApiFailure → ClassKind
  | ApiFailure.quotaExceededErr _ => ClassKind.quotaExceededK
  | ApiFailure.rateLimitErr _ => ClassKind.rateLimitedK
  | ApiFailure.genericAuthErr _ => ClassKind.authFailedK
  | ApiFailure.originalErr _ => ClassKind.unknownK

/-- The retry condition of `withRetry` (src/src/youtube-client.ts line 255):
the loop retries exactly when `error.code === 429` or the message contains
"quotaExceeded". -/
def isRetryableInLoop (e : ApiError) : Bool :=
  e.code == some 429 || strIncludes e.message "quotaExceeded"

/-- Terminal outcome of the `withRetry` loop: a successful return, a rethrown
action error, or the `Max retries exceeded` error reached only when the loop
body never runs. -/
inductive RetryOutcome (α : Type) where
  | success (a : α)
  | failure (e : ApiError)
  | exhausted

/-- Observable trace of one `withRetry` run: the outcome, how many times the
action was invoked, and the backoff sleeps performed, in order, in
milliseconds. -/
structure RetryTrace (α : Type) where
  outcome : RetryOutcome α
  attempts : Nat
  delays : List Nat

/-- Loop body of `withRetry` (src/src/youtube-client.ts lines 245-266).
`fn i` is the result of the i-th invocation of the action; `remaining` counts
loop iterations still to run, so the current loop index is
`maxRetries - remaining`; `attempts` and `acc` accumulate the trace (delays
accumulated in reverse). At index `maxRetries - 1` the source rethrows before
the retryability check; a retryable failure sleeps `2 ^ i * 1000` milliseconds
and continues; a non-retryable failure is rethrown. -/
def withRetryGo {α : Type} (fn : Nat → Except ApiError α) (maxRetries : Nat) :
    Nat → Nat → List Nat → RetryTrace α
  | 0, attempts, acc => ⟨RetryOutcome.exhausted, attempts, acc.reverse⟩
  | remaining + 1, attempts, acc =>
    let i := maxRetries - (remaining + 1)
    match fn i with
    | Except.ok a => ⟨RetryOutcome.success a, attempts + 1, acc.reverse⟩
    | Except.error e =>
      if remaining == 0 then
        ⟨RetryOutcome.failure e, attempts + 1, acc.reverse⟩
      else if isRetryableInLoop e then
        withRetryGo fn maxRetries remaining (attempts + 1) (2 ^ i * 1000 :: acc)
      else
        ⟨RetryOutcome.failure e, attempts + 1, acc.reverse⟩

/-- Embedding of `withRetry` (src/src/youtube-client.ts lines 245-266) with
its default `maxRetries = 3` made an explicit argument. -/
def withRetry {α : Type} (fn : Nat → Except ApiError α) (maxRetries : Nat) :
    RetryTrace α :=
  withRetryGo fn maxRetries maxRetries 0 []

/-- Observable trace of a full guarded call. -/
structure CallTrace (α : Type) where
  result : Except ApiFailure α
  attempts : Nat
  delays : List Nat

/-- Embedding of the calling pattern used by every API method of
src/src/youtube-client.ts: `try { await withRetry(fn) } catch (e)
{ handleApiError(e); throw e; }`. A failure escaping the retry loop is run
through `handleApiError`; the `Max retries exceeded` error thrown after a
zero-iteration loop has no status code and so also reaches `handleApiError`
unclassified. -/
def callWithClassification {α : Type} (fn : Nat → Except ApiError α)
    (maxRetries : Nat) : CallTrace α :=
  let t := withRetry fn maxRetries
  match t.outcome with
  | RetryOutcome.success a => ⟨Except.ok a, t.attempts, t.delays⟩
  | RetryOutcome.failure e => ⟨Except.error (handleApiError e), t.attempts, t.delays⟩
  | RetryOutcome.exhausted =>
    ⟨Except.error (handleApiError ⟨none, "Max retries exceeded"⟩), t.attempts, t.delays⟩

example : strIncludes "quotaExceeded: daily limit" "quotaExceeded" = true := by decide
example : strIncludes "rate limited" "rate" = true := by decide
example : strIncludes "rate limited" "userRateLimitExceeded" = false := by decide
example : kindOf (handleApiError ⟨some 403, "quotaExceeded: daily limit"⟩) =
    ClassKind.quotaExceededK := by decide
example : kindOf (handleApiError ⟨some 429, "too many requests"⟩) =
    ClassKind.rateLimitedK := by decide
example : kindOf (handleApiError ⟨some 403, "rate limited"⟩) =
    ClassKind.unknownK := by decide

/-- JavaScript `x || undefined` applied to an optional string: the empty
string is falsy and is replaced by undefined. Used by `saveToken` and
`updateStoredToken` for `access_token`. -/
def orUndefinedStr : Option String → Option String
  | none => none
  | some s => if s = "" then none else some s

/-- JavaScript `x || undefined` applied to an optional number: 0 is falsy and
is replaced by undefined. Used by `saveToken` and `updateStoredToken` for
`expiry_date`. -/
def orUndefinedInt : Option Int → Option Int
  | none => none
  | some n => if n = 0 then none else some n

/-- The persisted credential record, mirroring the `TokenData` interface of
src/src/types.ts (fields `type`, `client_id`, `client_secret`,
`refresh_token`, optional `access_token`, optional `expiry_date` in epoch
milliseconds). The interface declares `refresh_token` as a required string,
but `saveToken` writes `client.credentials.refresh_token!`, a compile-time
assertion only: at run time the value may be absent and JSON serialization
then drops the field, so the runtime record field is modelled as optional. -/
structure TokenData where
  type : String
  client_id : String
  client_secret : String
  refresh_token : Option String
  access_token : Option String
  expiry_date : Option Int
deriving DecidableEq

/-- The token fields of an in-memory OAuth2 client (`auth.credentials` of the
google-auth-library `Credentials` type, restricted to the fields this layer
reads and writes). -/
structure Credentials where
  refresh_token : Option String
  access_token : Option String
  expiry_date : Option Int
deriving DecidableEq

/-- The client configuration file (`credentials.json`), mirroring the
`AuthConfig` interface of src/src/types.ts restricted to the fields
`saveToken` reads (`web.client_id`, `web.client_secret`). -/
structure AuthConfigWeb where
  client_id : String
  client_secret : String
deriving DecidableEq

/-- Wrapper matching the `web` nesting of the `AuthConfig` interface. -/
structure AuthConfig where
  web : AuthConfigWeb
deriving DecidableEq

/-- Modelled from the spec: `google.auth.fromJSON` (external
google-auth-library code, not part of this repository) as used by
`getAuthClient`; per spec section 4.1, `load()` reads and parses the record
into a Credential carrying the record fields. -/
def authFromJSON (td : TokenData) : Credentials :=
  ⟨td.refresh_token, td.access_token, td.expiry_date⟩

/-- Modelled from the spec: `CredentialStore.load` (spec section 4.1) reads
and parses the persisted record; an absent file is a NotFound failure. In
`getAuthClient` this is the `fs.readFile` plus `JSON.parse` step. -/
def loadTokenData : Option TokenData → Except String TokenData
  | none => Except.error "NotFound"
  | some td => Except.ok td

/-- The record written by `saveToken` (src/src/auth/auth-manager.ts lines
98-120): `type` is the literal "authorized_user", the client identity comes
from the credentials configuration file (not from the credential being
saved), the tokens from `client.credentials`, with the JavaScript
`|| undefined` normalization on `access_token` and `expiry_date`. -/
def saveTokenData (cfg : AuthConfig) (creds : Credentials) : TokenData :=
  ⟨"authorized_user", cfg.web.client_id, cfg.web.client_secret,
    creds.refresh_token, orUndefinedStr creds.access_token,
    orUndefinedInt creds.expiry_date⟩

/-- The record rewrite performed by `updateStoredToken`
(src/src/auth/auth-manager.ts lines 122-135) on the parsed stored record:
only `access_token` and `expiry_date` are assigned, each through the
JavaScript `|| undefined` normalization. -/
def updateTokenData (td : TokenData) (creds : Credentials) : TokenData :=
  { td with
    access_token := orUndefinedStr creds.access_token,
    expiry_date := orUndefinedInt creds.expiry_date }

/-- The five-minute safety margin of `refreshTokenIfNeeded`, in
milliseconds. -/
def fiveMinutesMs : Int := 5 * 60 * 1000

/-- The refresh condition of `refreshTokenIfNeeded`
(src/src/auth/auth-manager.ts line 81): `expiryDate && expiryDate <=
fiveMinutesFromNow`. JavaScript truthiness is explicit: an absent
`expiry_date`, and the falsy value 0, leave the condition false, so no
refresh is attempted for them. -/
def needsRefresh (now : Int) (creds : Credentials) : Bool :=
  match creds.expiry_date with
  | none => false
  | some d => decide (d ≠ 0) && decide (d ≤ now + fiveMinutesMs)

/-- The error taxonomy of src/src/types.ts used by the auth manager:
`AuthenticationError` and its subtype `TokenExpiredError`. -/
inductive AuthError where
  | authenticationError (msg : String)
  | tokenExpiredError (msg : String)
deriving DecidableEq

/-- The external world observed by one `getAuthClient` call: the parsed
token file (none when missing or unreadable), the parsed client
configuration file (none when missing), the current time `Date.now()`, and
the outcomes the two external collaborators would produce if invoked — the
refresh exchange `auth.refreshAccessToken()` and the interactive consent
flow of the local-auth package (both external code, modelled from the spec
as opaque calls that either return fresh credentials or are rejected). -/
structure Env where
  tokenFile : Option TokenData
  credFile : Option AuthConfig
  now : Int
  refreshResult : Except String Credentials
  interactiveResult : Except String Credentials

/-- Result of one `refreshTokenIfNeeded` call: the resulting in-memory
credentials or the thrown error, the number of refresh exchanges invoked,
and the token file content afterwards. -/
structure RefreshRun where
  result : Except AuthError Credentials
  refreshCalls : Nat
  fileAfter : Option TokenData

/-- Embedding of `refreshTokenIfNeeded` (src/src/auth/auth-manager.ts lines
74-96). When the refresh condition holds the external exchange is invoked
exactly once; on success the client credentials are replaced wholesale by
`setCredentials` and the stored record is rewritten via `updateStoredToken`
(which first rereads the file and fails if it is missing); any failure
inside the try block is caught and rethrown as `TokenExpiredError`. When the
condition is false nothing happens. -/
def refreshTokenIfNeeded (env : Env) (creds : Credentials) : RefreshRun :=
  if needsRefresh env.now creds then
    match env.refreshResult with
    | Except.error _ => ⟨Except.error (AuthError.tokenExpiredError "default"), 1, env.tokenFile⟩
    | Except.ok newCreds =>
      match env.tokenFile with
      | none => ⟨Except.error (AuthError.tokenExpiredError "default"), 1, none⟩
      | some td => ⟨Except.ok newCreds, 1, some (updateTokenData td newCreds)⟩
  else
    ⟨Except.ok creds, 0, env.tokenFile⟩

/-- Result of one `authenticate` call: the acquired credentials or the
thrown `AuthenticationError`, and the token file content afterwards. -/
structure AcquireRun where
  result : Except AuthError Credentials
  fileAfter : Option TokenData

/-- Embedding of `authenticate` (src/src/auth/auth-manager.ts lines 41-72):
a missing credentials configuration file raises `AuthenticationError`;
otherwise the external interactive consent flow runs, its rejection is
wrapped in `AuthenticationError`, and on success the fresh credentials are
persisted through `saveToken` and returned. -/
def authenticateRun (env : Env) : AcquireRun :=
  match env.credFile with
  | none =>
    ⟨Except.error (AuthError.authenticationError "Credentials file not found"), env.tokenFile⟩
  | some cfg =>
    match env.interactiveResult with
    | Except.error msg =>
      ⟨Except.error (AuthError.authenticationError ("Authentication failed: " ++ msg)), env.tokenFile⟩
    | Except.ok c => ⟨Except.ok c, some (saveTokenData cfg c)⟩

/-- Observable trace of one `getAuthClient` call. -/
structure AuthRun where
  result : Except AuthError Credentials
  refreshCalls : Nat
  interactiveCalls : Nat
  fileAfter : Option TokenData

/-- Embedding of `getAuthClient` (src/src/auth/auth-manager.ts lines 20-39),
the `getValid()` operation of the spec: load and parse the token file, build
a client from it, run `refreshTokenIfNeeded` on it and return it; any
failure in that sequence (missing or unreadable file, or a refresh failure)
is caught and the call falls back to the interactive `authenticate` flow. -/
def getAuthClientRun (env : Env) : AuthRun :=
  match env.tokenFile with
  | some td =>
    let r := refreshTokenIfNeeded env (authFromJSON td)
    match r.result with
    | Except.ok c => ⟨Except.ok c, r.refreshCalls, 0, r.fileAfter⟩
    | Except.error _ =>
      let a := authenticateRun env
      ⟨a.result, r.refreshCalls, 1, a.fileAfter⟩
  | none =>
    let a := authenticateRun env
    ⟨a.result, 0, 1, a.fileAfter⟩

/-- True for a call that failed (with `AuthenticationError` or
`TokenExpiredError`), false for a call that returned credentials. -/
def isAuthFailure {α : Type} : Except AuthError α → Bool
  | Except.error _ => true
  | Except.ok _ => false

/-- The token file with its access mode, for the persistence-permission
model: the parsed record content and the POSIX permission bits. -/
structure TokenFileState where
  record : TokenData
  mode : Nat
deriving DecidableEq

/-- Semantics of `fs.writeFile` on the token path: rewriting an existing file
keeps its permission bits (Node applies the mode argument only when creating
the file); creating a fresh file uses the process default creation mode,
passed in explicitly here. -/
def writeFileFs : Option TokenFileState → TokenData → Nat → TokenFileState
  | some f, td, _ => ⟨td, f.mode⟩
  | none, td, createMode => ⟨td, createMode⟩

/-- Semantics of `fs.chmod` on the token path. -/
def chmodFs (f : TokenFileState) (m : Nat) : TokenFileState :=
  ⟨f.record, m⟩

/-- Embedding of the file effect of `saveToken` (src/src/auth/auth-manager.ts
lines 98-120): write the serialized record, then `fs.chmod(TOKEN_PATH,
0o600)`. -/
def saveTokenFs (st : Option TokenFileState) (cfg : AuthConfig)
    (creds : Credentials) (createMode : Nat) : TokenFileState :=
  chmodFs (writeFileFs st (saveTokenData cfg creds) createMode) 0o600

/-- Embedding of the file effect of `updateStoredToken`
(src/src/auth/auth-manager.ts lines 122-135): reread and parse the stored
record (failing with `AuthenticationError` when it is unreadable), assign
`access_token` and `expiry_date`, and write the record back. No permission
change is performed. -/
def updateStoredTokenFs (st : Option TokenFileState) (creds : Credentials)
    (createMode : Nat) : Except AuthError TokenFileState :=
  match st with
  | none => Except.error (AuthError.authenticationError "Failed to update stored token")
  | some f => Except.ok (writeFileFs (some f) (updateTokenData f.record creds) createMode)

/-- The in-memory credential as the round-trip claim views it: the client
identity the OAuth2 client is bound to together with its token fields. -/
structure ClientCredential where
  client_id : String
  client_secret : String
  creds : Credentials
deriving DecidableEq

/-- The record written when `saveToken` receives a client holding this
credential: the source reads only `client.credentials` plus the credentials
configuration file, never the client identity bound to the client object. -/
def saveTokenClient (cfg : AuthConfig) (c : ClientCredential) : TokenData :=
  saveTokenData cfg c.creds

/-- Field-by-field agreement between a persisted record and an in-memory
credential, over the five fields named by the round-trip claim. -/
def recordMatchesCredential (td : TokenData) (c : ClientCredential) : Bool :=
  td.client_id == c.client_id &&
  td.client_secret == c.client_secret &&
  td.refresh_token == c.creds.refresh_token &&
  td.access_token == c.creds.access_token &&
  td.expiry_date == c.creds.expiry_date

/-- Cooperative-interleaving model of overlapping `getValid()` calls.
`AuthManager` keeps no in-flight-refresh handle and no shared in-memory
credential: every `getAuthClient` call rereads token.json and builds its own
client object from it, and the stored record is rewritten only when a refresh
exchange completes. A call that starts while another call's refresh exchange
is still in flight therefore observes the pre-refresh record and runs the
whole `getAuthClient` path on it independently. The list holds the
environment observed by each overlapping call at its start (calls overlapping
the same in-flight refresh observe equal environments); the total number of
refresh exchanges is the sum over the independent calls. -/
def totalRefreshExchanges (observed : List Env) : Nat :=
  (observed.map (fun e => (getAuthClientRun e).refreshCalls)).sum

/-- C1 counterexample: the claimed rule table says a status 403 failure whose
message contains "rate" is classified RateLimited and retryable. The code
classifies `{status: 403, message: "rate limited"}` as nothing (the original
error propagates, the Unknown outcome), and the retry loop does not treat it
as retryable: the code matches the exact substrings "quotaExceeded" and
"userRateLimitExceeded", not "quota" and "rate". -/
theorem handleApiError_rate_message_unclassified :
    kindOf (handleApiError ⟨some 403, "rate limited"⟩) = ClassKind.unknownK ∧
    kindOf (handleApiError ⟨some 403, "rate limited"⟩) ≠ ClassKind.rateLimitedK ∧
    isRetryableInLoop ⟨some 403, "rate limited"⟩ = false := by
  decide

/-- C1 (amended): classification follows the ordered rule table actually in
`handleApiError`: status 403 with message containing "quotaExceeded" yields
QuotaExceeded; status 403 with message containing "userRateLimitExceeded"
(and not "quotaExceeded") yields RateLimited; status 429 yields RateLimited;
status 401 yields AuthFailed; any other failure is not reclassified (Unknown).
Retryability is decided separately, by the retry loop, which retries exactly
status 429 or a message containing "quotaExceeded"; in particular classifying
`{status: 403, message: "quotaExceeded: daily limit"}` yields QuotaExceeded
and is treated as retryable by the loop, and `{status: 429, message: "too
many requests"}` yields RateLimited and is retryable. -/
theorem handleApiError_classification_table (e : ApiError) :
    (kindOf (handleApiError e) = ClassKind.quotaExceededK ↔
      e.code = some 403 ∧ strIncludes e.message "quotaExceeded" = true) ∧
    (kindOf (handleApiError e) = ClassKind.rateLimitedK ↔
      ((e.code = some 403 ∧ strIncludes e.message "userRateLimitExceeded" = true ∧
        strIncludes e.message "quotaExceeded" = false) ∨ e.code = some 429)) ∧
    (kindOf (handleApiError e) = ClassKind.authFailedK ↔ e.code = some 401) ∧
    (isRetryableInLoop e = true ↔
      (e.code = some 429 ∨ strIncludes e.message "quotaExceeded" = true)) ∧
    kindOf (handleApiError ⟨some 403, "quotaExceeded: daily limit"⟩) =
      ClassKind.quotaExceededK ∧
    isRetryableInLoop ⟨some 403, "quotaExceeded: daily limit"⟩ = true ∧
    kindOf (handleApiError ⟨some 429, "too many requests"⟩) = ClassKind.rateLimitedK ∧
    isRetryableInLoop ⟨some 429, "too many requests"⟩ = true := by
  obtain ⟨c, m⟩ := e
  refine ⟨?_, ?_, ?_, ?_, by decide, by decide, by decide, by decide⟩ <;>
  · rcases c with _ | n <;>
      [simp [handleApiError, kindOf, isRetryableInLoop];
       by_cases h3 : n = 403 <;> by_cases h9 : n = 429 <;> by_cases h1 : n = 401 <;>
         first
         | omega
         | (cases hq : strIncludes m "quotaExceeded" <;>
              cases hu : strIncludes m "userRateLimitExceeded" <;>
                simp [handleApiError, kindOf, isRetryableInLoop, hq, hu, h3, h9, h1])]

/-- An action whose every invocation fails with the quota-exhaustion error of
the C2 scenario. -/
def quotaFailAction : Nat → Except ApiError Unit :=
  fun _ => Except.error ⟨some 403, "quotaExceeded: daily limit"⟩

/-- C2: evaluation at the failing input. An action always failing with
`{status: 403, message: "quotaExceeded: daily limit"}` is run through the
retry wrapper with its default limit 3: the loop condition at line 255 also
matches "quotaExceeded" messages (its comment claims to check for rate-limit
errors), so the code performs three attempts with backoff sleeps of 1000 ms
and 2000 ms before `QuotaExceededError` is finally raised — the claim says
exactly one attempt and no backoff sleep. -/
theorem withRetry_retries_quotaExceeded_eval :
    (callWithClassification quotaFailAction 3).attempts = 3 ∧
    (callWithClassification quotaFailAction 3).delays = [1000, 2000] ∧
    (callWithClassification quotaFailAction 3).result =
      Except.error (ApiFailure.quotaExceededErr "Daily quota exceeded") := by
  refine ⟨rfl, rfl, rfl⟩

/-- An action whose every invocation fails with the 403 user-rate-limit
error, which `handleApiError` classifies as `RateLimitError`. -/
def userRateFailAction : Nat → Except ApiError Unit :=
  fun _ => Except.error ⟨some 403, "userRateLimitExceeded"⟩

/-- C6 counterexample: an action always failing with `{status: 403, message:
"userRateLimitExceeded"}` fails with a RateLimited classification on every
invocation (`handleApiError` raises `RateLimitError` for it), yet the retry
wrapper with the default limit 3 performs a single attempt and no backoff at
all — the loop retries only status 429 or "quotaExceeded" messages — before
`RateLimitError` is raised. The claim requires `maxAttempts` attempts with
strictly increasing delays for every such action. -/
theorem withRetry_userRateLimit_not_retried :
    kindOf (handleApiError ⟨some 403, "userRateLimitExceeded"⟩) =
      ClassKind.rateLimitedK ∧
    (callWithClassification userRateFailAction 3).attempts = 1 ∧
    (callWithClassification userRateFailAction 3).attempts ≠ 3 ∧
    (callWithClassification userRateFailAction 3).delays = [] ∧
    (callWithClassification userRateFailAction 3).result =
      Except.error (ApiFailure.rateLimitErr "User rate limit exceeded") := by
  refine ⟨rfl, rfl, by decide, rfl, rfl⟩

/-- Loop invariant of `withRetryGo` for an action that always fails with a
status 429 error: with `r + 1` iterations left (current loop index
`m - (r + 1)`), the loop performs `r + 1` further attempts, sleeps before
each of the `r` retries with doubling delays, and ends rethrowing the
error. -/
theorem withRetryGo_const429 {α : Type} (e : ApiError) (he : e.code = some 429)
    (m : Nat) :
    ∀ r a acc, r + 1 ≤ m →
      withRetryGo (fun _ => (Except.error e : Except ApiError α)) m (r + 1) a acc =
        ⟨RetryOutcome.failure e, a + (r + 1),
          acc.reverse ++ (List.range r).map (fun j => 2 ^ (m - (r + 1) + j) * 1000)⟩ := by
  intro r
  induction r with
  | zero =>
    intro a acc _
    simp [withRetryGo]
  | succ k ih =>
    intro a acc h
    have hstep :
        withRetryGo (fun _ => (Except.error e : Except ApiError α)) m (k + 1 + 1) a acc =
          withRetryGo (fun _ => (Except.error e : Except ApiError α)) m (k + 1) (a + 1)
            (2 ^ (m - (k + 1 + 1)) * 1000 :: acc) := by
      simp [withRetryGo, isRetryableInLoop, he]
    rw [hstep, ih (a + 1) (2 ^ (m - (k + 1 + 1)) * 1000 :: acc) (by omega)]
    refine congrArg₂ _ (by omega) ?_
    rw [List.reverse_cons, List.range_succ_eq_map, List.map_cons, List.map_map]
    rw [List.append_assoc, List.singleton_append]
    refine congrArg _ (congrArg₂ _ rfl ?_)
    refine List.map_congr_left ?_
    intro j _
    simp only [Function.comp]
    have : m - (k + 1 + 1) + Nat.succ j = m - (k + 1) + j := by omega
    rw [this]

/-- C6 (amended): the universal retry guarantee holds for the failures the
loop actually treats as retryable, which among the RateLimited-classified
errors are exactly the status 429 ones (a 403 "userRateLimitExceeded"
failure is rethrown after a single attempt). For every action whose every
invocation fails with a status 429 error and every attempt limit
`maxAttempts ≥ 1` (default 3), the wrapper invokes the action exactly
`maxAttempts` times, sleeping before each of the `maxAttempts - 1` retries
for `2 ^ i` seconds (i the attempt index), a strictly increasing sequence of
delays, and then `RateLimitError` is raised. -/
theorem withRetry_always429_trace {α : Type} (e : ApiError) (m : Nat)
    (he : e.code = some 429) (hm : 1 ≤ m) :
    (callWithClassification (fun _ => (Except.error e : Except ApiError α)) m).attempts = m ∧
    (callWithClassification (fun _ => (Except.error e : Except ApiError α)) m).delays =
      (List.range (m - 1)).map (fun j => 2 ^ j * 1000) ∧
    List.Chain' (· < ·)
      ((callWithClassification (fun _ => (Except.error e : Except ApiError α)) m).delays) ∧
    (callWithClassification (fun _ => (Except.error e : Except ApiError α)) m).result =
      Except.error (ApiFailure.rateLimitErr "Rate limit exceeded") := by
  obtain ⟨r, rfl⟩ : ∃ r, m = r + 1 := ⟨m - 1, by omega⟩
  have hrun := withRetryGo_const429 (α := α) e he (r + 1) r 0 [] (by omega)
  have hsub : r + 1 - (r + 1) = 0 := by omega
  rw [hsub] at hrun
  simp only [Nat.zero_add] at hrun
  have hclass : handleApiError e = ApiFailure.rateLimitErr "Rate limit exceeded" := by
    obtain ⟨c, msg⟩ := e
    simp only at he
    subst he
    simp [handleApiError]
  have hchain : List.Chain' (· < ·) ((List.range r).map (fun j => 2 ^ j * 1000)) := by
    refine List.Pairwise.chain' ?_
    refine (List.pairwise_lt_range r).map _ ?_
    intro a b hab
    have := Nat.pow_lt_pow_right (by norm_num : 1 < 2) hab
    omega
  refine ⟨?_, ?_, ?_, ?_⟩ <;>
    simp [callWithClassification, withRetry, hrun, hclass, hchain]

/-- Witness for the amended C6 theorem at the scenario error `{status: 429,
message: "too many requests"}` and the default limit 3. -/
theorem withRetry_always429_trace_witness :
    (⟨some 429, "too many requests"⟩ : ApiError).code = some 429 ∧ 1 ≤ 3 ∧
    ((callWithClassification
        (fun _ => (Except.error ⟨some 429, "too many requests"⟩ : Except ApiError Unit))
        3).attempts = 3 ∧
     (callWithClassification
        (fun _ => (Except.error ⟨some 429, "too many requests"⟩ : Except ApiError Unit))
        3).delays = (List.range (3 - 1)).map (fun j => 2 ^ j * 1000) ∧
     List.Chain' (· < ·)
       ((callWithClassification
          (fun _ => (Except.error ⟨some 429, "too many requests"⟩ : Except ApiError Unit))
          3).delays) ∧
     (callWithClassification
        (fun _ => (Except.error ⟨some 429, "too many requests"⟩ : Except ApiError Unit))
        3).result = Except.error (ApiFailure.rateLimitErr "Rate limit exceeded")) :=
  ⟨rfl, by omega, withRetry_always429_trace ⟨some 429, "too many requests"⟩ 3 rfl (by omega)⟩

/-- The persisted record of the C3 scenario: a fresh authorized-user record
with no `expiry_date`. -/
def tdNoExpiry : TokenData := ⟨"authorized_user", "a", "b", some "r", none, none⟩

/-- A concrete environment holding the C3 scenario record, in which both
external flows would succeed if invoked. -/
def envNoExpiry : Env :=
  ⟨some tdNoExpiry, some ⟨⟨"a", "b"⟩⟩, 1700000000000,
    Except.ok ⟨some "r", some "refreshed", some 1700003600000⟩,
    Except.ok ⟨some "r2", some "acquired", some 1700003600000⟩⟩

/-- C3 counterexample: loading the record
`{"type":"authorized_user","client_id":"a","client_secret":"b",
"refresh_token":"r"}` (no `expiry_date`), `getAuthClient` performs no refresh
exchange at all and returns the loaded credential as is: the refresh
condition `expiryDate && expiryDate <= fiveMinutesFromNow` is false for an
absent expiry, so the credential is treated as not expiring rather than as
expired. The claim says a refresh exchange is performed before first use. -/
theorem getAuthClient_missing_expiry_no_refresh_eval :
    (getAuthClientRun envNoExpiry).refreshCalls = 0 ∧
    (getAuthClientRun envNoExpiry).result = Except.ok (authFromJSON tdNoExpiry) := by
  refine ⟨rfl, rfl⟩

/-- C3 (amended): for every persisted credential record lacking an
`expiry_date` field, `getValid()` treats the loaded credential as not
expiring: it returns it unchanged and performs no refresh exchange. A refresh
happens only when `expiry_date` is present (and nonzero) and lies within
five minutes of the current time. -/
theorem getAuthClient_missing_expiry_no_refresh (env : Env) (td : TokenData)
    (hfile : env.tokenFile = some td) (hexp : td.expiry_date = none) :
    (getAuthClientRun env).result = Except.ok (authFromJSON td) ∧
    (getAuthClientRun env).refreshCalls = 0 := by
  have hneed : needsRefresh env.now (authFromJSON td) = false := by
    simp [needsRefresh, authFromJSON, hexp]
  simp [getAuthClientRun, hfile, refreshTokenIfNeeded, hneed]

/-- Witness for the amended C3 theorem at the scenario record. -/
theorem getAuthClient_missing_expiry_no_refresh_witness :
    envNoExpiry.tokenFile = some tdNoExpiry ∧ tdNoExpiry.expiry_date = none ∧
    ((getAuthClientRun envNoExpiry).result = Except.ok (authFromJSON tdNoExpiry) ∧
     (getAuthClientRun envNoExpiry).refreshCalls = 0) :=
  ⟨rfl, rfl, getAuthClient_missing_expiry_no_refresh envNoExpiry tdNoExpiry rfl rfl⟩

/-- C4: for every stored credential whose expiry timestamp lies more than
five minutes after the current time, `getValid()` returns that credential
unchanged and does not invoke the refresh exchange: the condition
`expiryDate <= now + 5 minutes` is false, so `refreshTokenIfNeeded` does
nothing and `getAuthClient` returns the client built from the stored
record. -/
theorem getAuthClient_fresh_token_no_refresh (env : Env) (td : TokenData) (d : Int)
    (hfile : env.tokenFile = some td) (hexp : td.expiry_date = some d)
    (hfresh : env.now + fiveMinutesMs < d) :
    (getAuthClientRun env).result = Except.ok (authFromJSON td) ∧
    (getAuthClientRun env).refreshCalls = 0 := by
  rw [fiveMinutesMs] at hfresh
  have hneed : needsRefresh env.now (authFromJSON td) = false := by
    simp [needsRefresh, authFromJSON, hexp, fiveMinutesMs]
    omega
  simp [getAuthClientRun, hfile, refreshTokenIfNeeded, hneed]

/-- The stored record of the C4 witness: expiry far in the future. -/
def tdFresh : TokenData :=
  ⟨"authorized_user", "a", "b", some "r", some "tok", some 1893456000000⟩

/-- A concrete environment holding a fresh credential. -/
def envFresh : Env :=
  ⟨some tdFresh, some ⟨⟨"a", "b"⟩⟩, 1700000000000,
    Except.ok ⟨some "r", some "refreshed", some 1700003600000⟩,
    Except.ok ⟨some "r2", some "acquired", some 1700003600000⟩⟩

/-- Witness for the C4 theorem at a concrete fresh credential. -/
theorem getAuthClient_fresh_token_no_refresh_witness :
    envFresh.tokenFile = some tdFresh ∧
    tdFresh.expiry_date = some 1893456000000 ∧
    envFresh.now + fiveMinutesMs < 1893456000000 ∧
    ((getAuthClientRun envFresh).result = Except.ok (authFromJSON tdFresh) ∧
     (getAuthClientRun envFresh).refreshCalls = 0) :=
  ⟨rfl, rfl, by decide,
    getAuthClient_fresh_token_no_refresh envFresh tdFresh 1893456000000 rfl rfl
      (by decide)⟩

/-- The stored record of the C5 scenario: expiry long past. -/
def tdExpiring : TokenData :=
  ⟨"authorized_user", "a", "b", some "r", some "old", some 1000⟩

/-- A fresh credential produced by the interactive flow in the C5
scenario. -/
def acquiredCreds : Credentials := ⟨some "r2", some "new", some 1700003600000⟩

/-- A concrete environment in which the stored credential needs a refresh,
the refresh exchange is rejected, and the interactive flow succeeds. -/
def envRefreshFails : Env :=
  ⟨some tdExpiring, some ⟨⟨"a", "b"⟩⟩, 1700000000000,
    Except.error "invalid_grant", Except.ok acquiredCreds⟩

/-- C5 counterexample: with the refresh exchange rejected, `getValid()` does
not fail with `AuthenticationError` — `getAuthClient` catches the
`TokenExpiredError` raised by `refreshTokenIfNeeded` and directly runs the
interactive acquisition flow, so when that flow succeeds the call returns a
fresh credential successfully. The claim says the call fails with
`AuthenticationError` signaling that re-acquisition is required. -/
theorem getAuthClient_refresh_failure_reacquires_eval :
    (getAuthClientRun envRefreshFails).refreshCalls = 1 ∧
    (getAuthClientRun envRefreshFails).interactiveCalls = 1 ∧
    (getAuthClientRun envRefreshFails).result = Except.ok acquiredCreds ∧
    isAuthFailure (getAuthClientRun envRefreshFails).result = false := by
  refine ⟨rfl, rfl, rfl, rfl⟩

/-- C5 (amended): whenever the refresh exchange fails, `refreshTokenIfNeeded`
raises `TokenExpiredError`; `getAuthClient` discards the loaded credential
and immediately falls back to the interactive acquisition flow rather than
failing. The overall `getValid()` call has the outcome of that flow, and it
fails with `AuthenticationError` only when acquisition itself fails, for
example when no client configuration file is present. -/
theorem getAuthClient_refresh_failure_falls_back (env : Env) (td : TokenData)
    (msg : String) (hfile : env.tokenFile = some td)
    (hneed : needsRefresh env.now (authFromJSON td) = true)
    (href : env.refreshResult = Except.error msg) :
    (getAuthClientRun env).refreshCalls = 1 ∧
    (getAuthClientRun env).interactiveCalls = 1 ∧
    (getAuthClientRun env).result = (authenticateRun env).result ∧
    (env.credFile = none → isAuthFailure (getAuthClientRun env).result = true) := by
  refine ⟨?_, ?_, ?_, ?_⟩ <;>
    simp [getAuthClientRun, hfile, refreshTokenIfNeeded, hneed, href]
  intro hcfg
  simp [authenticateRun, hcfg, isAuthFailure]

/-- Witness for the amended C5 theorem at the concrete rejected-refresh
environment. -/
theorem getAuthClient_refresh_failure_falls_back_witness :
    envRefreshFails.tokenFile = some tdExpiring ∧
    needsRefresh envRefreshFails.now (authFromJSON tdExpiring) = true ∧
    envRefreshFails.refreshResult = Except.error "invalid_grant" ∧
    ((getAuthClientRun envRefreshFails).refreshCalls = 1 ∧
     (getAuthClientRun envRefreshFails).interactiveCalls = 1 ∧
     (getAuthClientRun envRefreshFails).result = (authenticateRun envRefreshFails).result ∧
     (envRefreshFails.credFile = none →
       isAuthFailure (getAuthClientRun envRefreshFails).result = true)) :=
  ⟨rfl, by decide, rfl,
    getAuthClient_refresh_failure_falls_back envRefreshFails tdExpiring "invalid_grant"
      rfl (by decide) rfl⟩

/-- The environment observed by each of the overlapping calls in the C9
scenario: a stored credential inside the five-minute window, with a refresh
exchange that succeeds. -/
def envStaleShared : Env :=
  ⟨some tdExpiring, some ⟨⟨"a", "b"⟩⟩, 1700000000000,
    Except.ok ⟨some "r", some "refreshed", some 1700003600000⟩,
    Except.ok ⟨some "r2", some "acquired", some 1700003600000⟩⟩

/-- C9 counterexample: two `getValid()` calls overlapping the same in-flight
refresh (both observing the same pre-refresh record) perform two refresh
exchanges in total, not one: `AuthManager` holds no pending-refresh handle
that a second caller could await, so each call runs its own
`refreshAccessToken` exchange. -/
theorem concurrent_refresh_not_single_flight_eval :
    totalRefreshExchanges (List.replicate 2 envStaleShared) = 2 ∧
    totalRefreshExchanges (List.replicate 2 envStaleShared) ≠ 1 := by
  refine ⟨rfl, by decide⟩

/-- C9 (amended): for every N ≥ 0, N concurrent `getValid()` calls that
observe the same pre-refresh stored record needing a refresh perform N
independent refresh exchanges in total — one per call, never a shared one. -/
theorem concurrent_refresh_linear (env : Env) (td : TokenData) (n : Nat)
    (hfile : env.tokenFile = some td)
    (hneed : needsRefresh env.now (authFromJSON td) = true) :
    totalRefreshExchanges (List.replicate n env) = n := by
  have hone : (getAuthClientRun env).refreshCalls = 1 := by
    rcases henv : env.refreshResult with msg | nc <;>
      simp [getAuthClientRun, hfile, refreshTokenIfNeeded, hneed, henv]
  induction n with
  | zero => simp [totalRefreshExchanges]
  | succ k ih =>
    simp only [totalRefreshExchanges, List.replicate_succ, List.map_cons,
      List.sum_cons, hone] at ih ⊢
    omega

/-- Witness for the amended C9 theorem at N = 2 on the concrete shared
environment. -/
theorem concurrent_refresh_linear_witness :
    envStaleShared.tokenFile = some tdExpiring ∧
    needsRefresh envStaleShared.now (authFromJSON tdExpiring) = true ∧
    totalRefreshExchanges (List.replicate 2 envStaleShared) = 2 :=
  ⟨rfl, by decide, concurrent_refresh_linear envStaleShared tdExpiring 2 rfl (by decide)⟩

/-- The client configuration of the C7 round-trip scenario. -/
def cfgRound : AuthConfig := ⟨⟨"a", "b"⟩⟩

/-- A credential bound to a client identity that differs from the
configuration file's. -/
def credMismatch : ClientCredential :=
  ⟨"other-client", "other-secret", ⟨some "r", some "tok", some 1700000000000⟩⟩

/-- C7 counterexample: `save` followed by `load` does not return a credential
equal in all fields to the original for every credential: `saveToken` writes
`client_id` and `client_secret` from the credentials configuration file, not
from the credential being saved, so a credential bound to a different client
identity round-trips to the configuration file's identity. -/
theorem save_load_roundtrip_fails_eval :
    loadTokenData (some (saveTokenClient cfgRound credMismatch)) =
      Except.ok (saveTokenClient cfgRound credMismatch) ∧
    (saveTokenClient cfgRound credMismatch).client_id ≠ credMismatch.client_id ∧
    recordMatchesCredential (saveTokenClient cfgRound credMismatch) credMismatch = false := by
  refine ⟨rfl, by decide, by decide⟩

/-- C7 (amended): for every credential whose client identity equals the one
in the credentials configuration file (the identity `saveToken` actually
persists), whose `access_token` is not the empty string and whose
`expiry_date` is not 0 (both JavaScript-falsy values are dropped by the
`|| undefined` normalization at write time), `save` followed by `load`
yields a record equal to the original credential in all five fields. -/
theorem save_load_roundtrip (cfg : AuthConfig) (c : ClientCredential)
    (hid : c.client_id = cfg.web.client_id)
    (hsec : c.client_secret = cfg.web.client_secret)
    (hacc : c.creds.access_token ≠ some "")
    (hexp : c.creds.expiry_date ≠ some 0) :
    loadTokenData (some (saveTokenClient cfg c)) =
      Except.ok (saveTokenClient cfg c) ∧
    recordMatchesCredential (saveTokenClient cfg c) c = true := by
  refine ⟨rfl, ?_⟩
  obtain ⟨cid, csec, ⟨rt, acc, ed⟩⟩ := c
  simp only at hid hsec hacc hexp
  have h1 : orUndefinedStr acc = acc := by
    rcases acc with _ | s
    · rfl
    · simp only [orUndefinedStr]
      rw [if_neg]
      intro h
      exact hacc (by rw [h])
  have h2 : orUndefinedInt ed = ed := by
    rcases ed with _ | n
    · rfl
    · simp only [orUndefinedInt]
      rw [if_neg]
      intro h
      exact hexp (by rw [h])
  simp [recordMatchesCredential, saveTokenClient, saveTokenData, h1, h2, hid, hsec]

/-- A credential matching the configuration file identity, used as the C7
witness input. -/
def credAligned : ClientCredential :=
  ⟨"a", "b", ⟨some "r", some "tok", some 1700000000000⟩⟩

/-- Witness for the amended C7 theorem at a concrete aligned credential. -/
theorem save_load_roundtrip_witness :
    credAligned.client_id = cfgRound.web.client_id ∧
    credAligned.client_secret = cfgRound.web.client_secret ∧
    credAligned.creds.access_token ≠ some "" ∧
    credAligned.creds.expiry_date ≠ some 0 ∧
    (loadTokenData (some (saveTokenClient cfgRound credAligned)) =
       Except.ok (saveTokenClient cfgRound credAligned) ∧
     recordMatchesCredential (saveTokenClient cfgRound credAligned) credAligned = true) :=
  ⟨rfl, rfl, by decide, by decide,
    save_load_roundtrip cfgRound credAligned rfl rfl (by decide) (by decide)⟩

/-- The stored record of the C8 failing input. -/
def tdPerm : TokenData := ⟨"authorized_user", "a", "b", some "r", some "t", some 1000⟩

/-- The refreshed in-memory credentials of the C8 failing input. -/
def credsPerm : Credentials := ⟨some "r", some "t2", some 1700003600000⟩

/-- C8: evaluation at the failing input. A token file present with
permissions 0644 (for example a manually placed record, which the project
documentation supports) that is rewritten by a successful refresh keeps
mode 0644: `updateStoredToken` calls no `chmod`, and `fs.writeFile` on an
existing file preserves its permission bits — while `saveToken` does set
0600 after its write. So the mandated owner-only restriction at every write
does not hold for refresh-triggered rewrites. -/
theorem updateStoredToken_preserves_lax_mode_eval :
    updateStoredTokenFs (some ⟨tdPerm, 0o644⟩) credsPerm 0o644 =
      Except.ok ⟨updateTokenData tdPerm credsPerm, 0o644⟩ ∧
    (0o644 : Nat) ≠ 0o600 ∧
    (saveTokenFs (some ⟨tdPerm, 0o644⟩) ⟨⟨"a", "b"⟩⟩ credsPerm 0o644).mode = 0o600 := by
  refine ⟨rfl, by decide, rfl⟩

/-- C10: a refresh-triggered rewrite of the persisted record modifies only
the `access_token` and `expiry_date` fields: for every previously stored
record, after `updateStoredToken` completes, the `type`, `client_id`,
`client_secret` and `refresh_token` fields on disk equal those of the record
read before the rewrite, and the two assigned fields carry the refreshed
values (normalized through `|| undefined`). -/
theorem updateStoredToken_frame (f : TokenFileState) (creds : Credentials)
    (createMode : Nat) (f2 : TokenFileState)
    (h : updateStoredTokenFs (some f) creds createMode = Except.ok f2) :
    f2.record.type = f.record.type ∧
    f2.record.client_id = f.record.client_id ∧
    f2.record.client_secret = f.record.client_secret ∧
    f2.record.refresh_token = f.record.refresh_token ∧
    f2.record.access_token = orUndefinedStr creds.access_token ∧
    f2.record.expiry_date = orUndefinedInt creds.expiry_date := by
  simp only [updateStoredTokenFs, writeFileFs, Except.ok.injEq] at h
  subst h
  simp [updateTokenData]

/-- Witness for the C10 frame theorem at a concrete stored record. -/
theorem updateStoredToken_frame_witness :
    updateStoredTokenFs (some ⟨⟨"authorized_user", "ca", "cs", some "rr", some "aa", some 5⟩, 0o600⟩)
        ⟨some "rr", some "bb", some 77⟩ 0o644 =
      Except.ok ⟨⟨"authorized_user", "ca", "cs", some "rr", some "bb", some 77⟩, 0o600⟩ ∧
    (⟨"authorized_user", "ca", "cs", some "rr", some "bb", some 77⟩ : TokenData).type =
        ("authorized_user" : String) ∧
    (⟨"authorized_user", "ca", "cs", some "rr", some "bb", some 77⟩ : TokenData).refresh_token =
        some "rr" := by
  have h := updateStoredToken_frame
    ⟨⟨"authorized_user", "ca", "cs", some "rr", some "aa", some 5⟩, 0o600⟩
    ⟨some "rr", some "bb", some 77⟩ 0o644
    ⟨⟨"authorized_user", "ca", "cs", some "rr", some "bb", some 77⟩, 0o600⟩ rfl
  exact ⟨rfl, h.1, h.2.2.2.1⟩
